import Mathlib

/-!
Verification of the movie-catalog CRUD service (`src/routes/movies.py`,
`src/schemas/movies.py`) against its natural-language specification.

The database tables are embedded as Lean lists of row structures; each
route handler becomes a pure function from the request data and the
database state to a result together with the new database state.
Auto-increment primary keys are modelled by per-table counters carried in
the state.  Columns that the ORM layer allows to be written with `None`
are modelled as `Option` fields; floating-point score/budget/revenue are
modelled as rationals (the handlers only compare and copy them); calendar
dates are modelled as integers (a day number), which is faithful for the
comparisons the code performs.
-/

namespace MovieService

/-- Production status enumeration (`MovieStatusEnum` in `schemas/movies.py`). -/
inductive MovieStatusEnum where
  | RELEASED
  | POST_PRODUCTION
  | IN_PRODUCTION
deriving DecidableEq, Repr

/-- The underlying string of each enum member (`.value` in Python). -/
def MovieStatusEnum.value : MovieStatusEnum → String
  | .RELEASED => "Released"
  | .POST_PRODUCTION => "Post Production"
  | .IN_PRODUCTION => "In Production"

/-- A row of the Genre / Actor / Language tables: id plus unique name. -/
structure NamedRow where
  id : Nat
  name : String
deriving DecidableEq, Repr

/-- A row of the Country table: id, ISO code, optional display name. -/
structure CountryRow where
  id : Nat
  code : String
  name : Option String
deriving DecidableEq, Repr

/-- A row of the Movie table.  Scalar columns are `Option`-typed because the
PATCH handler can write `None` through to any of them; a freshly created
movie has every scalar populated with `some`.  Relations are kept as lists
of foreign keys. -/
structure MovieRow where
  id : Nat
  name : Option String
  date : Option Int
  score : Option Rat
  overview : Option String
  status : Option String
  budget : Option Rat
  revenue : Option Rat
  countryId : Nat
  genreIds : List Nat
  actorIds : List Nat
  languageIds : List Nat
deriving DecidableEq, Repr

/-- The persistent store: one list per table plus auto-increment counters. -/
structure DB where
  movies : List MovieRow
  genres : List NamedRow
  actors : List NamedRow
  languages : List NamedRow
  countries : List CountryRow
  nextMovieId : Nat
  nextGenreId : Nat
  nextActorId : Nat
  nextLanguageId : Nat
  nextCountryId : Nat
deriving DecidableEq, Repr

/-- `get_or_create_related_instance` (routes/movies.py lines 39-54): select
the row whose `name` column equals `name`; if absent, insert a new row and
flush so its id is assigned.  The table, its auto-increment counter, and
the returned row are made explicit. -/
def get_or_create_related_instance (table : List NamedRow) (nextId : Nat)
    (name : String) : NamedRow × List NamedRow × Nat :=
  match table.find? (fun r => r.name == name) with
  | some r => (r, table, nextId)
  | none =>
      let r : NamedRow := ⟨nextId, name⟩
      (r, table ++ [r], nextId + 1)

/-- The validated body of `POST /movies/` (`MovieCreateRequest` in
`schemas/movies.py`). -/
structure MovieCreateRequest where
  name : String
  date : Int
  score : Rat
  overview : String
  status : MovieStatusEnum
  budget : Rat
  revenue : Rat
  country : String
  genres : List String
  actors : List String
  languages : List String
deriving DecidableEq, Repr

/-- The field constraints of `MovieCreateRequest` (schemas/movies.py lines
63-82): `constr(max_length=255)` on name, `confloat(ge=0, le=100)` on
score, `confloat(ge=0)` on budget and revenue, and the `validate_date`
validator rejecting dates more than 365 days after today.  `today` is the
current date as a day number. -/
def movieCreateRequestValid (today : Int) (r : MovieCreateRequest) : Bool :=
  r.name.length ≤ 255 &&
  (0 : Rat) ≤ r.score && r.score ≤ 100 &&
  (0 : Rat) ≤ r.budget &&
  (0 : Rat) ≤ r.revenue &&
  r.date ≤ today + 365

/-- Result of the create handler: HTTP 409 conflict, or HTTP 201 with the
id of the inserted movie. -/
inductive CreateResult where
  | conflict
  | created (movieId : Nat)
deriving DecidableEq, Repr

/-- Resolve the lists of genre / actor / language names in input order, one
`get_or_create_related_instance` call per name (routes/movies.py lines
184-195), threading the table and its counter through the calls. -/
def getOrCreateAll (table : List NamedRow) (nextId : Nat) :
    List String → List NamedRow × List NamedRow × Nat
  | [] => ([], table, nextId)
  | name :: rest =>
      let step := get_or_create_related_instance table nextId name
      let restOut := getOrCreateAll step.2.1 step.2.2 rest
      (step.1 :: restOut.1, restOut.2.1, restOut.2.2)

/-- `create_movie` (routes/movies.py lines 150-218): reject with 409 when a
movie with the same name and date exists; otherwise resolve the country by
code (creating it with a null display name if absent), resolve genres,
actors and languages through the get-or-create helper, insert the movie,
and commit. -/
def create_movie (movie_data : MovieCreateRequest) (db : DB) :
    CreateResult × DB :=
  match db.movies.find?
      (fun m => m.name == some movie_data.name &&
                m.date == some movie_data.date) with
  | some _ => (CreateResult.conflict, db)
  | none =>
      let countryStep : CountryRow × List CountryRow × Nat :=
        match db.countries.find? (fun c => c.code == movie_data.country) with
        | some c => (c, db.countries, db.nextCountryId)
        | none =>
            let c : CountryRow := ⟨db.nextCountryId, movie_data.country, none⟩
            (c, db.countries ++ [c], db.nextCountryId + 1)
      let genresStep := getOrCreateAll db.genres db.nextGenreId movie_data.genres
      let actorsStep := getOrCreateAll db.actors db.nextActorId movie_data.actors
      let languagesStep :=
        getOrCreateAll db.languages db.nextLanguageId movie_data.languages
      let new_movie : MovieRow :=
        { id := db.nextMovieId
          name := some movie_data.name
          date := some movie_data.date
          score := some movie_data.score
          overview := some movie_data.overview
          status := some movie_data.status.value
          budget := some movie_data.budget
          revenue := some movie_data.revenue
          countryId := countryStep.1.id
          genreIds := genresStep.1.map NamedRow.id
          actorIds := actorsStep.1.map NamedRow.id
          languageIds := languagesStep.1.map NamedRow.id }
      (CreateResult.created db.nextMovieId,
        { db with
            movies := db.movies ++ [new_movie]
            genres := genresStep.2.1
            actors := actorsStep.2.1
            languages := languagesStep.2.1
            countries := countryStep.2.1
            nextMovieId := db.nextMovieId + 1
            nextGenreId := genresStep.2.2
            nextActorId := actorsStep.2.2
            nextLanguageId := languagesStep.2.2
            nextCountryId := countryStep.2.2 })

/-- `get_movie_by_id` (routes/movies.py lines 57-73): select the movie whose
id column equals `movie_id` (the eager-loading options only affect how the
relations are fetched, not which row is returned). -/
def get_movie_by_id (movie_id : Nat) (db : DB) : Option MovieRow :=
  db.movies.find? (fun m => m.id == movie_id)

/-- `get_movie_details` (routes/movies.py lines 228-239): HTTP 200 with the
movie when found, HTTP 404 (`none`) otherwise. -/
def get_movie_details (movie_id : Nat) (db : DB) : Option MovieRow :=
  get_movie_by_id movie_id db

/-- Result of the delete handler: HTTP 404, or HTTP 204 with no body. -/
inductive DeleteResult where
  | notFound
  | noContent
deriving DecidableEq, Repr

/-- `delete_movie` (routes/movies.py lines 248-266): fetch by id, 404 when
absent, otherwise delete that row and commit. -/
def delete_movie (movie_id : Nat) (db : DB) : DeleteResult × DB :=
  match db.movies.find? (fun m => m.id == movie_id) with
  | none => (DeleteResult.notFound, db)
  | some _ =>
      (DeleteResult.noContent,
        { db with movies := db.movies.eraseP (fun m => m.id == movie_id) })

/-- The body of `PATCH /movies/{id}/` (`MovieUpdateRequest` in
`schemas/movies.py`).  Pydantic distinguishes a field that is absent from
the payload from one explicitly set (possibly to `null`): the outer
`Option` is "was the field provided", the inner one is the provided value,
`none` being an explicit `null`. -/
structure MovieUpdateRequest where
  name : Option (Option String) := none
  date : Option (Option Int) := none
  score : Option (Option Rat) := none
  overview : Option (Option String) := none
  status : Option (Option MovieStatusEnum) := none
  budget : Option (Option Rat) := none
  revenue : Option (Option Rat) := none
deriving DecidableEq, Repr

/-- The `setattr` loop of the update handler (routes/movies.py lines
296-304): `model_dump(exclude_unset=True)` keeps exactly the provided
fields (explicit nulls included); a provided non-null status is converted
to its enum value string first (`if "status" in update_data and
update_data["status"]`), a provided null bypasses that conversion because
`None` is falsy. -/
def applyUpdate (movie_data : MovieUpdateRequest) (m : MovieRow) : MovieRow :=
  { m with
      name := match movie_data.name with
        | none => m.name
        | some v => v
      date := match movie_data.date with
        | none => m.date
        | some v => v
      score := match movie_data.score with
        | none => m.score
        | some v => v
      overview := match movie_data.overview with
        | none => m.overview
        | some v => v
      status := match movie_data.status with
        | none => m.status
        | some none => none
        | some (some e) => some e.value
      budget := match movie_data.budget with
        | none => m.budget
        | some v => v
      revenue := match movie_data.revenue with
        | none => m.revenue
        | some v => v }

/-- Apply `f` to the first element satisfying `p`, leaving the rest alone
(the ORM mutates the single fetched instance in place). -/
def setFirst (p : α → Bool) (f : α → α) : List α → List α
  | [] => []
  | a :: rest => if p a then f a :: rest else a :: setFirst p f rest

/-- Result of the update handler: HTTP 404, or HTTP 200 with the
confirmation body. -/
inductive UpdateResult where
  | notFound
  | updated
deriving DecidableEq, Repr

/-- `update_movie` (routes/movies.py lines 276-308): fetch by id, 404 when
absent, otherwise apply the provided fields to that row and commit. -/
def update_movie (movie_id : Nat) (movie_data : MovieUpdateRequest)
    (db : DB) : UpdateResult × DB :=
  match db.movies.find? (fun m => m.id == movie_id) with
  | none => (UpdateResult.notFound, db)
  | some _ =>
      (UpdateResult.updated,
        { db with
            movies := setFirst (fun m => m.id == movie_id)
              (applyUpdate movie_data) db.movies })

/-- The `ORDER BY id DESC` relation on movie rows. -/
def movieIdDescRel (a b : MovieRow) : Prop := b.id ≤ a.id

instance : DecidableRel movieIdDescRel :=
  fun a b => inferInstanceAs (Decidable (b.id ≤ a.id))

instance : IsTotal MovieRow movieIdDescRel :=
  ⟨fun a b => Or.symm (Nat.le_total a.id b.id)⟩

instance : IsTrans MovieRow movieIdDescRel :=
  ⟨fun _ _ _ hab hbc => Nat.le_trans hbc hab⟩

/-- The movie table ordered by id descending (`ORDER BY MovieModel.id
DESC`), embedded as a sorting of the table's rows. -/
def orderByIdDesc (ms : List MovieRow) : List MovieRow :=
  List.insertionSort movieIdDescRel ms

/-- The paginated response body (`MoviesListResponse` in
`schemas/movies.py`). -/
structure MoviesListResponse where
  movies : List MovieRow
  prev_page : Option String
  next_page : Option String
  total_pages : Nat
  total_items : Nat
deriving DecidableEq, Repr

/-- The hardcoded base URL of the list endpoint (routes/movies.py line
123). -/
def base_url : String := "/api/v1/theater/movies/"

/-- One pagination link, `f"{base_url}?page={p}&per_page={pp}"`. -/
def pageLink (page per_page : Nat) : String :=
  base_url ++ "?page=" ++ toString page ++ "&per_page=" ++ toString per_page

/-- Modelled from the spec: the application module that mounts this router
is not under `src/`; spec section 6 says the HTTP paths are "prefixed by an
external routing layer", and section 4.3 says the pagination links are
built "against the list endpoint's own path", so the path at which the
list endpoint is served is taken to be the path the handler builds its
links against. -/
def listEndpointServingPath : String := "/api/v1/theater/movies/"

/-- The page slice: `OFFSET (page-1)*per_page LIMIT per_page` over the
id-descending ordering (routes/movies.py lines 92, 107-114). -/
def pageSlice (page per_page : Nat) (db : DB) : List MovieRow :=
  ((orderByIdDesc db.movies).drop ((page - 1) * per_page)).take per_page

/-- `get_movies_list` (routes/movies.py lines 83-140): count the movies,
404 when the count is zero; fetch the slice, 404 when it is empty;
otherwise build the prev/next links and return the response body. -/
def get_movies_list (page per_page : Nat) (db : DB) :
    Option MoviesListResponse :=
  let total_items := db.movies.length
  if total_items = 0 then none
  else
    let total_pages := (total_items + per_page - 1) / per_page
    let movies := pageSlice page per_page db
    if movies.isEmpty then none
    else
      some
        { movies := movies
          prev_page :=
            if 1 < page then some (pageLink (page - 1) per_page) else none
          next_page :=
            if page < total_pages then some (pageLink (page + 1) per_page)
            else none
          total_pages := total_pages
          total_items := total_items }

/-- A small concrete genre table used to evaluate the theorems. -/
def exGenres : List NamedRow := [⟨1, "Sci-Fi"⟩, ⟨2, "Drama"⟩]

/-- A concrete movie row with id `i`, used to evaluate the theorems. -/
def exMovie (i : Nat) : MovieRow :=
  { id := i
    name := some ("m" ++ toString i)
    date := some (10 + i)
    score := some 50
    overview := some "an overview"
    status := some "Released"
    budget := some 1000
    revenue := some 2000
    countryId := 1
    genreIds := [1]
    actorIds := [1]
    languageIds := [1] }

/-- A concrete database with five movies, used to evaluate the theorems. -/
def exDB : DB :=
  { movies := [exMovie 1, exMovie 2, exMovie 3, exMovie 4, exMovie 5]
    genres := exGenres
    actors := [⟨1, "Actor A"⟩]
    languages := [⟨1, "English"⟩]
    countries := [⟨1, "USA", none⟩]
    nextMovieId := 6
    nextGenreId := 3
    nextActorId := 2
    nextLanguageId := 2
    nextCountryId := 2 }

/-- A concrete create request, used to evaluate the theorems. -/
def exCreateReq : MovieCreateRequest :=
  { name := "Dune"
    date := 100
    score := 82
    overview := "A desert planet."
    status := MovieStatusEnum.RELEASED
    budget := 165000000
    revenue := 400000000
    country := "USA"
    genres := ["Sci-Fi"]
    actors := ["Actor A"]
    languages := ["English"] }

/-- A concrete PATCH body providing only `score`. -/
def exScorePatch : MovieUpdateRequest := { score := some (some 99) }

/-- A concrete PATCH body providing only an explicit `status: null`. -/
def exNullPatch : MovieUpdateRequest := { status := some none }

/-- The concrete response body of `GET /movies/?page=1&per_page=2` over
`exDB`. -/
def exListOk : MoviesListResponse :=
  { movies := [exMovie 5, exMovie 4]
    prev_page := none
    next_page := some (pageLink 2 2)
    total_pages := 3
    total_items := 5 }

end MovieService

namespace MovieService

/-- Claim C1: for the Genre / Actor / Language tables, the get-or-create
resolver returns the existing row whose name equals the given name when
one exists (leaving the table untouched), otherwise inserts exactly one
new row with that name and the next free id and returns it; the resulting
count of rows with that name is `max` of the previous count and one (so no
duplicate is ever created), and a repeated call from the resulting state
returns the same row and changes nothing (idempotence). -/
theorem get_or_create_spec (t : List NamedRow) (n : Nat) (name : String) :
    (get_or_create_related_instance t n name).1.name = name ∧
    (∀ r, t.find? (fun x => x.name == name) = some r →
      get_or_create_related_instance t n name = (r, t, n)) ∧
    (t.find? (fun x => x.name == name) = none →
      get_or_create_related_instance t n name =
        (⟨n, name⟩, t ++ [⟨n, name⟩], n + 1)) ∧
    (get_or_create_related_instance t n name).2.1.countP
        (fun x => x.name == name) =
      max (t.countP (fun x => x.name == name)) 1 ∧
    get_or_create_related_instance
        (get_or_create_related_instance t n name).2.1
        (get_or_create_related_instance t n name).2.2 name =
      get_or_create_related_instance t n name := by
  rcases h : t.find? (fun x => x.name == name) with _ | r
  · have hzero : t.countP (fun x => x.name == name) = 0 :=
      List.countP_eq_zero.mpr (List.find?_eq_none.mp h)
    refine ⟨?_, ?_, ?_, ?_, ?_⟩
    · simp [get_or_create_related_instance, h]
    · intro r0 h0
      rw [h0] at h
      exact absurd h (by simp)
    · intro _
      simp [get_or_create_related_instance, h]
    · simp [get_or_create_related_instance, h, List.countP_append, hzero,
        List.countP_cons]
    · simp only [get_or_create_related_instance, h]
      have hfind : (t ++ [(⟨n, name⟩ : NamedRow)]).find?
          (fun x => x.name == name) = some ⟨n, name⟩ := by
        rw [List.find?_append, h]
        simp
      simp [hfind]
  · have hp : (r.name == name) = true := by
      have hq := List.find?_some h
      exact hq
    have hmem : r ∈ t := List.mem_of_find?_eq_some h
    have hpos : 1 ≤ t.countP (fun x => x.name == name) :=
      List.countP_pos_iff.mpr ⟨r, hmem, hp⟩
    refine ⟨?_, ?_, ?_, ?_, ?_⟩
    · simp only [get_or_create_related_instance, h]
      exact eq_of_beq hp
    · intro r0 h0
      rw [h] at h0
      injection h0 with h1
      simp [get_or_create_related_instance, h, h1]
    · intro h0
      rw [h0] at h
      exact absurd h (by simp)
    · simp only [get_or_create_related_instance, h]
      exact (Nat.max_eq_left hpos).symm
    · simp [get_or_create_related_instance, h]

/-- Claim C1 witness: the resolver at a concrete table and name. -/
theorem get_or_create_spec_witness :
    get_or_create_related_instance exGenres 3 "Drama" =
      (⟨2, "Drama"⟩, exGenres, 3) :=
  (get_or_create_spec exGenres 3 "Drama").2.1 ⟨2, "Drama"⟩ rfl

/-- Claim C2: the create handler answers 409 conflict exactly when a movie
with the same name and release date already exists (no other request field
enters the duplicate check), leaves the store untouched in that case, and
answers 201 with the freshly assigned id when no such movie exists. -/
theorem create_movie_conflict_spec (movie_data : MovieCreateRequest)
    (db : DB) :
    ((create_movie movie_data db).1 = CreateResult.conflict ↔
      ∃ m ∈ db.movies,
        m.name = some movie_data.name ∧ m.date = some movie_data.date) ∧
    ((create_movie movie_data db).1 = CreateResult.conflict →
      (create_movie movie_data db).2 = db) ∧
    ((¬∃ m ∈ db.movies,
        m.name = some movie_data.name ∧ m.date = some movie_data.date) →
      (create_movie movie_data db).1 = CreateResult.created db.nextMovieId) := by
  rcases h : db.movies.find?
      (fun m => m.name == some movie_data.name &&
                m.date == some movie_data.date) with _ | m
  · have hnone : ∀ m ∈ db.movies,
        ¬(m.name = some movie_data.name ∧ m.date = some movie_data.date) := by
      intro m hm hc
      have hq := List.find?_eq_none.mp h m hm
      apply hq
      simp [hc.1, hc.2]
    refine ⟨?_, ?_, ?_⟩
    · constructor
      · intro h0
        exact absurd h0 (by simp [create_movie, h])
      · intro hex
        rcases hex with ⟨m, hm, hc⟩
        exact absurd hc (hnone m hm)
    · intro h0
      exact absurd h0 (by simp [create_movie, h])
    · intro _
      simp [create_movie, h]
  · have hp : (m.name == some movie_data.name &&
        m.date == some movie_data.date) = true := by
      have hq := List.find?_some h
      exact hq
    have hmem : m ∈ db.movies := List.mem_of_find?_eq_some h
    have hand := Bool.and_eq_true_iff.mp hp
    refine ⟨?_, ?_, ?_⟩
    · constructor
      · intro _
        exact ⟨m, hmem, eq_of_beq hand.1, eq_of_beq hand.2⟩
      · intro _
        simp [create_movie, h]
    · intro _
      simp [create_movie, h]
    · intro hno
      exact absurd ⟨m, hmem, eq_of_beq hand.1, eq_of_beq hand.2⟩ hno

/-- Claim C2 witness: creating a fresh movie in the concrete database
succeeds with the next id. -/
theorem create_movie_conflict_spec_witness :
    (create_movie exCreateReq exDB).1 = CreateResult.created 6 :=
  (create_movie_conflict_spec exCreateReq exDB).2.2 (by decide)

/-- Claim C7: a create request passes the schema validation exactly when
its name is at most 255 characters, its score lies in [0, 100], its budget
and revenue are non-negative, and its release date is at most 365 days
after the current date. -/
theorem movieCreateRequestValid_iff (today : Int) (r : MovieCreateRequest) :
    movieCreateRequestValid today r = true ↔
      (r.name.length ≤ 255 ∧ 0 ≤ r.score ∧ r.score ≤ 100 ∧
       0 ≤ r.budget ∧ 0 ≤ r.revenue ∧ r.date ≤ today + 365) := by
  simp [movieCreateRequestValid, and_assoc]

/-- Claim C7 witness: the concrete create request passes validation. -/
theorem movieCreateRequestValid_iff_witness :
    movieCreateRequestValid 0 exCreateReq = true :=
  (movieCreateRequestValid_iff 0 exCreateReq).mpr (by decide)

/-- When ids are pairwise distinct, erasing the row with a given id leaves
no row with that id behind. -/
theorem find?_id_eraseP (l : List MovieRow) (mid : Nat)
    (hnodup : (l.map MovieRow.id).Nodup) :
    (l.eraseP (fun m => m.id == mid)).find? (fun m => m.id == mid) = none := by
  induction l with
  | nil => rfl
  | cons a l ih =>
      rw [List.map_cons, List.nodup_cons] at hnodup
      rw [List.eraseP_cons]
      by_cases hpa : (a.id == mid) = true
      · rw [hpa]
        simp only [cond_true]
        apply List.find?_eq_none.mpr
        intro m hm hq
        apply hnodup.1
        have hm1 : m.id = mid := by simpa using hq
        have ha1 : a.id = mid := by simpa using hpa
        rw [ha1, ← hm1]
        exact List.mem_map_of_mem MovieRow.id hm
      · rw [Bool.not_eq_true] at hpa
        rw [hpa]
        simp only [cond_false]
        rw [List.find?_cons_of_neg _ (by simp [hpa])]
        exact ih hnodup.2

/-- Claim C8: the delete handler answers 404 and leaves the store untouched
when no movie has the given id; when one does, it answers 204, removes that
row, and a subsequent detail fetch of the same id (under the primary-key
invariant that ids are pairwise distinct) answers 404. -/
theorem delete_movie_spec (movie_id : Nat) (db : DB)
    (hnodup : (db.movies.map MovieRow.id).Nodup) :
    (get_movie_by_id movie_id db = none →
      delete_movie movie_id db = (DeleteResult.notFound, db)) ∧
    (∀ m, get_movie_by_id movie_id db = some m →
      (delete_movie movie_id db).1 = DeleteResult.noContent ∧
      (delete_movie movie_id db).2.movies =
        db.movies.eraseP (fun x => x.id == movie_id) ∧
      get_movie_details movie_id (delete_movie movie_id db).2 = none) := by
  rcases h : db.movies.find? (fun m => m.id == movie_id) with _ | m0
  · constructor
    · intro _
      simp [delete_movie, h]
    · intro m hm
      simp only [get_movie_by_id] at hm
      rw [h] at hm
      cases hm
  · constructor
    · intro h0
      simp only [get_movie_by_id] at h0
      rw [h] at h0
      cases h0
    · intro m _
      refine ⟨by simp [delete_movie, h], by simp [delete_movie, h], ?_⟩
      simp only [get_movie_details, get_movie_by_id, delete_movie, h]
      exact find?_id_eraseP db.movies movie_id hnodup

/-- Claim C8 witness: deleting movie 3 of the concrete database succeeds
and the subsequent detail fetch misses. -/
theorem delete_movie_spec_witness :
    (delete_movie 3 exDB).1 = DeleteResult.noContent ∧
    get_movie_details 3 (delete_movie 3 exDB).2 = none := by
  have h := (delete_movie_spec 3 exDB (by decide)).2 (exMovie 3) rfl
  exact ⟨h.1, h.2.2⟩

/-- Replacing the first element found by `find?` with an image that still
satisfies the predicate makes that image the first element found. -/
theorem find?_setFirst {α : Type} (p : α → Bool) (f : α → α) (l : List α)
    (a : α) (h : l.find? p = some a) (hf : p (f a) = true) :
    (setFirst p f l).find? p = some (f a) := by
  induction l with
  | nil => cases h
  | cons x l ih =>
      by_cases hx : p x = true
      · rw [List.find?_cons_of_pos _ hx] at h
        injection h with h
        subst h
        rw [setFirst, if_pos hx]
        exact List.find?_cons_of_pos _ hf
      · rw [Bool.not_eq_true] at hx
        rw [List.find?_cons_of_neg _ (by simp [hx])] at h
        rw [setFirst, if_neg (by simp [hx])]
        rw [List.find?_cons_of_neg _ (by simp [hx])]
        exact ih h

/-- The update handler preserves the id column. -/
theorem applyUpdate_id (movie_data : MovieUpdateRequest) (m : MovieRow) :
    (applyUpdate movie_data m).id = m.id := rfl

/-- Updating an existing movie succeeds and the re-fetched row is exactly
the old row with the provided fields applied. -/
theorem update_refetch (movie_id : Nat) (movie_data : MovieUpdateRequest)
    (db : DB) (m : MovieRow) (h : get_movie_by_id movie_id db = some m) :
    (update_movie movie_id movie_data db).1 = UpdateResult.updated ∧
    get_movie_by_id movie_id (update_movie movie_id movie_data db).2 =
      some (applyUpdate movie_data m) := by
  simp only [get_movie_by_id] at h
  have hp : (m.id == movie_id) = true := by
    have hq := List.find?_some h
    exact hq
  constructor
  · simp [update_movie, h]
  · simp only [get_movie_by_id, update_movie, h]
    exact find?_setFirst _ _ db.movies m h (by simp_all [applyUpdate_id])

end MovieService

namespace MovieService

/-- Claim C4: a PATCH of an existing movie applies exactly the fields
explicitly present in the payload — each provided field takes the provided
value (a provided non-null status through its enum value string) and each
absent field keeps its previous value when the movie is re-fetched. -/
theorem update_movie_frame_spec (movie_id : Nat)
    (movie_data : MovieUpdateRequest) (db : DB) (m : MovieRow)
    (h : get_movie_by_id movie_id db = some m) :
    (update_movie movie_id movie_data db).1 = UpdateResult.updated ∧
    get_movie_by_id movie_id (update_movie movie_id movie_data db).2 =
      some (applyUpdate movie_data m) ∧
    (movie_data.name = none → (applyUpdate movie_data m).name = m.name) ∧
    (movie_data.date = none → (applyUpdate movie_data m).date = m.date) ∧
    (movie_data.score = none → (applyUpdate movie_data m).score = m.score) ∧
    (movie_data.overview = none →
      (applyUpdate movie_data m).overview = m.overview) ∧
    (movie_data.status = none → (applyUpdate movie_data m).status = m.status) ∧
    (movie_data.budget = none → (applyUpdate movie_data m).budget = m.budget) ∧
    (movie_data.revenue = none →
      (applyUpdate movie_data m).revenue = m.revenue) ∧
    (∀ v, movie_data.name = some v → (applyUpdate movie_data m).name = v) ∧
    (∀ v, movie_data.date = some v → (applyUpdate movie_data m).date = v) ∧
    (∀ v, movie_data.score = some v → (applyUpdate movie_data m).score = v) ∧
    (∀ v, movie_data.overview = some v →
      (applyUpdate movie_data m).overview = v) ∧
    (∀ v, movie_data.status = some v →
      (applyUpdate movie_data m).status = v.map MovieStatusEnum.value) ∧
    (∀ v, movie_data.budget = some v → (applyUpdate movie_data m).budget = v) ∧
    (∀ v, movie_data.revenue = some v →
      (applyUpdate movie_data m).revenue = v) := by
  obtain ⟨h1, h2⟩ := update_refetch movie_id movie_data db m h
  refine ⟨h1, h2, ?_, ?_, ?_, ?_, ?_, ?_, ?_, ?_, ?_, ?_, ?_, ?_, ?_, ?_⟩
  all_goals
    first
    | (intro hv; simp [applyUpdate, hv])
    | (intro v hv
       rcases v with _ | v <;> simp [applyUpdate, hv])

/-- Claim C4 witness: patching only the score of movie 2 keeps its other
columns. -/
theorem update_movie_frame_spec_witness :
    get_movie_by_id 2 (update_movie 2 exScorePatch exDB).2 =
      some (applyUpdate exScorePatch (exMovie 2)) ∧
    (applyUpdate exScorePatch (exMovie 2)).score = some 99 ∧
    (applyUpdate exScorePatch (exMovie 2)).name = (exMovie 2).name ∧
    (applyUpdate exScorePatch (exMovie 2)).status = (exMovie 2).status := by
  have h := update_movie_frame_spec 2 exScorePatch exDB (exMovie 2) rfl
  exact ⟨h.2.1, h.2.2.2.2.2.2.2.2.2.2.2.1 (some 99) rfl, h.2.2.1 rfl,
    h.2.2.2.2.2.2.1 rfl⟩

/-- Claim C10: a PATCH payload that explicitly sets a recognized field to
null writes null through to that column of the stored movie; in particular
an explicit `status: null` is stored as null, skipping the enum-to-string
conversion (which only runs for a provided non-null status). -/
theorem update_movie_null_spec (movie_id : Nat)
    (movie_data : MovieUpdateRequest) (db : DB) (m : MovieRow)
    (h : get_movie_by_id movie_id db = some m) :
    get_movie_by_id movie_id (update_movie movie_id movie_data db).2 =
      some (applyUpdate movie_data m) ∧
    (movie_data.status = some none →
      (applyUpdate movie_data m).status = none) ∧
    (movie_data.name = some none → (applyUpdate movie_data m).name = none) ∧
    (movie_data.date = some none → (applyUpdate movie_data m).date = none) ∧
    (movie_data.score = some none → (applyUpdate movie_data m).score = none) ∧
    (movie_data.overview = some none →
      (applyUpdate movie_data m).overview = none) ∧
    (movie_data.budget = some none →
      (applyUpdate movie_data m).budget = none) ∧
    (movie_data.revenue = some none →
      (applyUpdate movie_data m).revenue = none) := by
  obtain ⟨_, h2⟩ := update_refetch movie_id movie_data db m h
  refine ⟨h2, ?_, ?_, ?_, ?_, ?_, ?_, ?_⟩
  all_goals intro hv; simp [applyUpdate, hv]

/-- Claim C10 witness: an explicit `status: null` patch on movie 2 stores a
null status. -/
theorem update_movie_null_spec_witness :
    (applyUpdate exNullPatch (exMovie 2)).status = none := by
  have h := update_movie_null_spec 2 exNullPatch exDB (exMovie 2) rfl
  exact h.2.1 rfl

end MovieService

namespace MovieService

/-- Characterization of a 200 answer of the list handler: the catalog is
non-empty, the page slice is non-empty, and the body is built from the
slice, the links and the totals. -/
theorem get_movies_list_some (page pp : Nat) (db : DB)
    (ok : MoviesListResponse) (h : get_movies_list page pp db = some ok) :
    db.movies.length ≠ 0 ∧
    pageSlice page pp db ≠ [] ∧
    ok = { movies := pageSlice page pp db
           prev_page :=
             if 1 < page then some (pageLink (page - 1) pp) else none
           next_page :=
             if page < (db.movies.length + pp - 1) / pp then
               some (pageLink (page + 1) pp)
             else none
           total_pages := (db.movies.length + pp - 1) / pp
           total_items := db.movies.length } := by
  simp only [get_movies_list] at h
  split at h
  · cases h
  · split at h
    · cases h
    · rename_i h0 h1
      injection h with h
      refine ⟨h0, ?_, h.symm⟩
      intro hempty
      exact h1 (by simp [hempty])

/-- Claim C5: the list handler answers 404 exactly when the catalog is
empty or the requested page slice has zero rows; a 200 answer carries a
non-empty movie list. -/
theorem get_movies_list_not_found_iff (page pp : Nat) (db : DB) :
    (get_movies_list page pp db = none ↔
      db.movies = [] ∨ pageSlice page pp db = []) ∧
    (∀ ok, get_movies_list page pp db = some ok → ok.movies ≠ []) := by
  constructor
  · simp only [get_movies_list]
    split
    · rename_i h0
      simp only [true_iff]
      left
      exact List.length_eq_zero.mp h0
    · split
      · rename_i h0 h1
        simp only [true_iff]
        right
        exact List.isEmpty_iff.mp h1
      · rename_i h0 h1
        constructor
        · intro hc
          cases hc
        · intro hc
          exfalso
          rcases hc with hc | hc
          · exact h0 (by simp [hc])
          · exact h1 (by simp [hc])
  · intro ok hok
    obtain ⟨_, hslice, hok⟩ := get_movies_list_some page pp db ok hok
    rw [hok]
    exact hslice

/-- Claim C5 witness: page 4 of the five-movie database at two per page is
out of range and answers 404, while page 1 answers a non-empty body. -/
theorem get_movies_list_not_found_iff_witness :
    get_movies_list 4 2 exDB = none ∧ exListOk.movies ≠ [] :=
  ⟨(get_movies_list_not_found_iff 4 2 exDB).1.mpr (Or.inr rfl),
   (get_movies_list_not_found_iff 1 2 exDB).2 exListOk rfl⟩

/-- Claim C6: a 200 answer of the list handler returns exactly the slice of
the id-descending ordering of the movie table starting at offset
(page−1)·per_page with at most per_page items; that ordering is a
permutation of the table sorted so that ids are non-increasing. -/
theorem get_movies_list_slice_spec (page pp : Nat) (db : DB)
    (ok : MoviesListResponse) (h : get_movies_list page pp db = some ok) :
    ok.movies =
      ((orderByIdDesc db.movies).drop ((page - 1) * pp)).take pp ∧
    (orderByIdDesc db.movies).Perm db.movies ∧
    List.Sorted movieIdDescRel (orderByIdDesc db.movies) ∧
    ok.movies.length ≤ pp := by
  obtain ⟨_, _, hok⟩ := get_movies_list_some page pp db ok h
  have hmov : ok.movies = pageSlice page pp db := by rw [hok]
  refine ⟨hmov, List.perm_insertionSort movieIdDescRel db.movies,
    List.sorted_insertionSort movieIdDescRel db.movies, ?_⟩
  rw [hmov, pageSlice]
  calc (((orderByIdDesc db.movies).drop ((page - 1) * pp)).take pp).length
      ≤ pp := by
        rw [List.length_take]
        exact Nat.min_le_left pp _

/-- Claim C6 witness: page 1 with two per page over the concrete database
returns the slice of the id-descending ordering. -/
theorem get_movies_list_slice_spec_witness :
    exListOk.movies =
      ((orderByIdDesc exDB.movies).drop ((1 - 1) * 2)).take 2 :=
  (get_movies_list_slice_spec 1 2 exDB exListOk rfl).1

/-- Claim C9: the pagination links of a 200 list answer are query strings
built against the path at which the list endpoint is served, carrying the
page and per_page parameters of the adjacent pages. -/
theorem get_movies_list_links_spec (page pp : Nat) (db : DB)
    (ok : MoviesListResponse) (h : get_movies_list page pp db = some ok) :
    (∀ s, ok.prev_page = some s →
      s = listEndpointServingPath ++ "?page=" ++ toString (page - 1) ++
          "&per_page=" ++ toString pp) ∧
    (∀ s, ok.next_page = some s →
      s = listEndpointServingPath ++ "?page=" ++ toString (page + 1) ++
          "&per_page=" ++ toString pp) := by
  obtain ⟨_, _, hok⟩ := get_movies_list_some page pp db ok h
  have hprev : ok.prev_page =
      if 1 < page then some (pageLink (page - 1) pp) else none := by
    rw [hok]
  have hnext : ok.next_page =
      if page < (db.movies.length + pp - 1) / pp then
        some (pageLink (page + 1) pp)
      else none := by
    rw [hok]
  constructor
  · intro s hs
    rw [hprev] at hs
    split at hs
    · injection hs with hs
      subst hs
      rfl
    · cases hs
  · intro s hs
    rw [hnext] at hs
    split at hs
    · injection hs with hs
      subst hs
      rfl
    · cases hs

/-- Claim C9 witness: the next link of page 1 at two per page points to
page 2 of the serving path. -/
theorem get_movies_list_links_spec_witness :
    pageLink 2 2 = listEndpointServingPath ++ "?page=" ++ toString (1 + 1) ++
      "&per_page=" ++ toString 2 :=
  (get_movies_list_links_spec 1 2 exDB exListOk rfl).2 (pageLink 2 2) rfl

/-- Claim C3: for a valid page (at least 1) and per_page (1 to 20), a 200
list answer returns at most per_page movies, omits the previous link
exactly on page 1, omits the next link exactly on the last page, and
reports total_pages as the ceiling of total_items over per_page. -/
theorem get_movies_list_pagination_spec (page pp : Nat) (db : DB)
    (ok : MoviesListResponse) (hpage : 1 ≤ page) (hpp1 : 1 ≤ pp)
    (hpp2 : pp ≤ 20) (h : get_movies_list page pp db = some ok) :
    ok.movies.length ≤ pp ∧
    (ok.prev_page = none ↔ page = 1) ∧
    (ok.next_page = none ↔ page = ok.total_pages) ∧
    ok.total_pages = (ok.total_items + pp - 1) / pp := by
  obtain ⟨hlen0, hslice, hok⟩ := get_movies_list_some page pp db ok h
  set ti := db.movies.length with hti
  set tp := (ti + pp - 1) / pp with htp
  have hmov : ok.movies = pageSlice page pp db := by rw [hok]
  have hprev : ok.prev_page =
      if 1 < page then some (pageLink (page - 1) pp) else none := by
    rw [hok]
  have hnext : ok.next_page =
      if page < tp then some (pageLink (page + 1) pp) else none := by
    rw [hok]
  have htotp : ok.total_pages = tp := by rw [hok]
  have htoti : ok.total_items = ti := by rw [hok]
  have hofs : (page - 1) * pp < ti := by
    by_contra hge
    push_neg at hge
    apply hslice
    have hdrop : (orderByIdDesc db.movies).drop ((page - 1) * pp) = [] := by
      apply List.drop_eq_nil_iff.mpr
      rw [orderByIdDesc,
        (List.perm_insertionSort movieIdDescRel db.movies).length_eq]
      exact hge
    rw [pageSlice, hdrop]
    exact List.take_nil
  have hpagele : page ≤ tp := by
    rw [htp, Nat.le_div_iff_mul_le (by omega : 0 < pp)]
    have hexp : page * pp = (page - 1) * pp + pp := by
      have hsub : page - 1 + 1 = page := Nat.sub_add_cancel hpage
      calc page * pp = (page - 1 + 1) * pp := by rw [hsub]
        _ = (page - 1) * pp + 1 * pp := by rw [Nat.add_mul]
        _ = (page - 1) * pp + pp := by rw [Nat.one_mul]
    rw [hexp]
    omega
  refine ⟨?_, ?_, ?_, ?_⟩
  · rw [hmov, pageSlice, List.length_take]
    exact Nat.min_le_left pp _
  · rw [hprev]
    by_cases hp : 1 < page
    · rw [if_pos hp]
      constructor
      · intro hc
        cases hc
      · intro hc
        exact absurd hc (by omega)
    · rw [if_neg hp]
      constructor
      · intro _
        omega
      · intro _
        rfl
  · rw [hnext, htotp]
    by_cases hp : page < tp
    · rw [if_pos hp]
      constructor
      · intro hc
        cases hc
      · intro hc
        exact absurd hc (by omega)
    · rw [if_neg hp]
      constructor
      · intro _
        omega
      · intro _
        rfl
  · rw [htotp, htoti]

/-- Claim C3 witness: page 1 of the concrete database at two per page. -/
theorem get_movies_list_pagination_spec_witness :
    exListOk.movies.length ≤ 2 ∧ (exListOk.prev_page = none ↔ (1 : Nat) = 1) := by
  have h := get_movies_list_pagination_spec 1 2 exDB exListOk (by decide)
    (by decide) (by decide) rfl
  exact ⟨h.1, h.2.1⟩

end MovieService
